import Mathlib

/-!
Shallow embedding of the devicehub-dashboard repository (four JS variants):
  * src/unnamed/part_001 — the "lobster" aggregation server: geo cache
    (`lookupGeo`), `fetchStats`, `fetchDevices`, and the `/data` handler;
  * src/server-dashboard.js and src/unnamed/part_000 — proxy variants whose
    `/stats` handler checks configuration and mirrors the upstream response;
  * src/unnamed/part_002 — proxy variant whose `/stats` handler performs the
    upstream call unconditionally.

Outbound HTTP is modelled by oracles (functions from the request key to an
outcome); every embedded operation additionally reports the number of
external calls it performs, so "no external call" is provable.
-/

/-- JSON values, as produced by `res.json(...)` / `JSON.stringify`. -/
inductive Json where
  | null : Json
  | str (s : String) : Json
  | num (n : Int) : Json
  | bool (b : Bool) : Json
  | arr (xs : List Json) : Json
  | obj (fields : List (String × Json)) : Json

/-- The fields of a JSON object (empty for non-objects). -/
def objFields : Json → List (String × Json)
  | .obj fs => fs
  | _ => []

/-- The keys of a JSON object, in order. -/
def objKeys (j : Json) : List String := (objFields j).map (·.1)

/-- First-match field lookup in a JSON object field list. -/
def lookupField : List (String × Json) → String → Option Json
  | [], _ => none
  | (k2, v) :: rest, k => if k2 = k then some v else lookupField rest k

/-- An HTTP response as sent to the browser. -/
structure HttpResponse where
  status : Nat
  body : Json

/-! ### IPv4 shape test — `const ipv4 = /^(?:\d{1,3}\.){3}\d{1,3}$/` -/

/-- Split a character list on the dot character, keeping empty groups
(the grouping the anchored regex effectively checks). -/
def splitDots : List Char → List (List Char)
  | [] => [[]]
  | c :: rest =>
    if c = '.' then [] :: splitDots rest
    else
      match splitDots rest with
      | g :: gs => (c :: g) :: gs
      | [] => [[c]]

/-- One `\d{1,3}` group: one to three decimal digits. -/
def octet (g : List Char) : Bool :=
  decide (1 ≤ g.length) && decide (g.length ≤ 3) && g.all (fun c => c.isDigit)

/-- `ipv4.test(ip)`: four dot-separated groups of 1–3 digits. -/
def ipv4test (s : String) : Bool :=
  match splitDots s.data with
  | [a, b, c, d] => octet a && octet b && octet c && octet d
  | _ => false

/-! ### Geo resolution cache — `lookupGeo` in src/unnamed/part_001 -/

/-- The normalized geolocation result `{ city, country, latitude, longitude }`.
Coordinates are JSON numbers or null; the embedding restricts provider
coordinate fields to number-or-absent, so the `typeof` branch of the source's
normalization is the identity here. -/
structure GeoResult where
  city : String
  country : String
  latitude : Option Int
  longitude : Option Int
deriving DecidableEq

/-- A cache entry: the geo result fields plus the store timestamp `ts`
(epoch milliseconds), as in `geoCache.set(ip, { ...geo, ts: Date.now() })`. -/
structure GeoEntry where
  city : String
  country : String
  latitude : Option Int
  longitude : Option Int
  ts : Int
deriving DecidableEq

/-- The in-memory `geoCache` Map, as an association list (later writes are
prepended, and lookup takes the first match, giving Map overwrite
semantics). -/
abbrev GeoCache := List (String × GeoEntry)

/-- `geoCache.get(ip)`. -/
def cacheGet : GeoCache → String → Option GeoEntry
  | [], _ => none
  | (k, e) :: rest, ip => if k = ip then some e else cacheGet rest ip

/-- `geoCache.set(ip, e)` (overwrite semantics via first-match lookup). -/
def cacheSet (c : GeoCache) (ip : String) (e : GeoEntry) : GeoCache :=
  (ip, e) :: c

/-- The parsed body of a successful ipapi.co response: the fields the source
reads. Coordinate fields are modelled as number-or-absent. -/
structure GeoBody where
  city : Option String
  country_name : Option String
  country : Option String
  latitude : Option Int
  longitude : Option Int
deriving DecidableEq

/-- Outcome of the outbound geolocation fetch for one IP. -/
inductive GeoFetch where
  | ok (body : GeoBody)
  | httpError
  | failure
deriving DecidableEq

/-- JavaScript `a || b` on a possibly-absent string (absent and empty are
falsy). -/
def strOr (a : Option String) (b : String) : String :=
  match a with
  | some s => if s = "" then b else s
  | none => b

/-- The normalization of the provider body into a `GeoResult`:
`city: j.city || ""`, `country: j.country_name || j.country || ""`,
coordinates passed through when numeric, null when absent. -/
def normalizeGeo (j : GeoBody) : GeoResult :=
  { city := strOr j.city ""
    country := strOr j.country_name (strOr j.country "")
    latitude := j.latitude
    longitude := j.longitude }

/-- `7 * 24 * 3600 * 1000` milliseconds. -/
def sevenDaysMs : Int := 7 * 24 * 3600 * 1000

/-- The entry stored on a successful lookup: `{ ...geo, ts: now }`. -/
def entryOf (g : GeoResult) (now : Int) : GeoEntry :=
  { city := g.city, country := g.country, latitude := g.latitude
    longitude := g.longitude, ts := now }

/-- The result rebuilt from a fresh cache entry:
`{ city: cached.city, country: cached.country, ... }`. -/
def entryToResult (e : GeoEntry) : GeoResult :=
  { city := e.city, country := e.country, latitude := e.latitude
    longitude := e.longitude }

/-- The fetch-and-store tail of `lookupGeo` (cache miss or stale entry):
returns the result, the new cache, and the number of external calls (1). -/
def geoFetchStep (oracle : String → GeoFetch) (now : Int) (cache : GeoCache)
    (ip : String) : Option GeoResult × GeoCache × Nat :=
  match oracle ip with
  | .ok body =>
    let geo := normalizeGeo body
    (some geo, cacheSet cache ip (entryOf geo now), 1)
  | .httpError => (none, cache, 1)
  | .failure => (none, cache, 1)

/-- `lookupGeo(ip)` from src/unnamed/part_001, with the cache, the clock and
the outbound fetch made explicit. Returns
`(result, new cache, external calls performed)`. -/
def lookupGeo (oracle : String → GeoFetch) (now : Int) (cache : GeoCache)
    (ip : String) : Option GeoResult × GeoCache × Nat :=
  if ipv4test ip = false then (none, cache, 0)
  else
    match cacheGet cache ip with
    | some cached =>
      if now - cached.ts < sevenDaysMs then (some (entryToResult cached), cache, 0)
      else geoFetchStep oracle now cache ip
    | none => geoFetchStep oracle now cache ip

/-! ### Upstream device records and `fetchDevices` (src/unnamed/part_001) -/

/-- An upstream device record, with the fields the `/data` handler reads.
Absent JSON fields are `none`; `online` is the truthiness the source takes
with `!!d.online`. -/
structure DeviceRec where
  id : Option String
  ip : Option String
  os : Option String
  username : Option String
  hostname : Option String
  lastSeen : Option Int
  online : Bool
deriving DecidableEq

/-- Outcome of the outbound `GET /api/devices` call. A successful response
carries `j.devices` when it is an array (`none` when absent or not an
array). -/
inductive DevOutcome where
  | ok (devices : Option (List DeviceRec))
  | httpError (status : Nat)
  | failure

/-- `fetchDevices()` from src/unnamed/part_001: returns `[]` with zero
outbound calls when `ADMIN_TOKEN` is empty; otherwise one call, throwing
(`Except.error`) on a non-ok status or a fetch/parse failure. Returns
`(outcome, external calls performed)`. -/
def fetchDevices (adminToken : String) (out : DevOutcome) :
    Except String (List DeviceRec) × Nat :=
  if adminToken = "" then (Except.ok [], 0)
  else
    match out with
    | .ok devs => (Except.ok (devs.getD []), 1)
    | .httpError status => (Except.error ("devices " ++ toString status), 1)
    | .failure => (Except.error "fetch failed", 1)

/-! ### The `/data` aggregation handler (src/unnamed/part_001) -/

/-- Outcome of an awaited fetch promise before its `.catch` handler runs. -/
inductive Fetch (α : Type) where
  | ok (a : α)
  | fail
deriving DecidableEq

/-- The parsed body of a successful upstream `/stats` response: the four
count fields, each possibly absent or null. -/
structure StatsJson where
  installed : Option Int
  active : Option Int
  offline : Option Int
  deleted : Option Int
deriving DecidableEq

/-- `d?.ip && ipv4.test(d.ip)`: the device has a truthy `ip` field of IPv4
shape. -/
def eligible (d : DeviceRec) : Bool :=
  match d.ip with
  | some s => (!(s == "")) && ipv4test s
  | none => false

/-- `devices.filter(d => d?.ip && ipv4.test(d.ip)).slice(0, 10)`. -/
def geoTargets (devices : List DeviceRec) : List DeviceRec :=
  (devices.filter eligible).take 10

/-- Functional rendering of the in-place enrichment loop: walking the device
array, the k-th eligible device (k counted from the front) is a member of
`geoTargets` exactly when `k < 10`, and only those devices get
`d.geo = await lookupGeo(d.ip) || null`; every other device keeps no geo
field. `geoOf` abstracts one `lookupGeo` invocation against the shared
cache. -/
def enrichGo (geoOf : String → Option GeoResult) :
    Nat → List DeviceRec → List (DeviceRec × Option GeoResult)
  | _, [] => []
  | k, d :: rest =>
    if eligible d then
      (if k < 10 then (d, geoOf (d.ip.getD "")) else (d, none)) ::
        enrichGo geoOf (k + 1) rest
    else (d, none) :: enrichGo geoOf k rest

/-- The enrichment pass of the `/data` handler, starting with zero geo-lookup
slots consumed. -/
def enrich (geoOf : String → Option GeoResult)
    (devices : List DeviceRec) : List (DeviceRec × Option GeoResult) :=
  enrichGo geoOf 0 devices

/-- The number of eligible devices strictly before index `i` of the device
array — the geo-lookup slots consumed before the walk reaches index `i`. -/
def countEligibleBefore (ds : List DeviceRec) (i : Nat) : Nat :=
  ((ds.take i).filter eligible).length

/-- `x ?? null` on an optional count, as a JSON value. -/
def optNumJson : Option Int → Json
  | some n => .num n
  | none => .null

/-- One element of `publicDevices`: the sanitized view-model built from a
(possibly enriched) device. The raw `ip` field is not read. -/
def publicDeviceJson (d : DeviceRec) (geo : Option GeoResult) : Json :=
  .obj [("id", .str (d.id.getD "")),
        ("country", .str ((geo.map (·.country)).getD "")),
        ("city", .str ((geo.map (·.city)).getD "")),
        ("os", .str (d.os.getD "")),
        ("username", .str (d.username.getD "")),
        ("hostname", .str (d.hostname.getD "")),
        ("lastSeen", .num (d.lastSeen.getD 0)),
        ("online", .bool d.online)]

/-- The `res.json({...})` body of the `/data` handler. -/
def dataBody (now : Int) (stats : Option StatsJson)
    (enriched : List (DeviceRec × Option GeoResult)) : Json :=
  .obj [("ts", .num now),
        ("installed", optNumJson (stats.bind (·.installed))),
        ("active", optNumJson (stats.bind (·.active))),
        ("offline", optNumJson (stats.bind (·.offline))),
        ("deleted", optNumJson (stats.bind (·.deleted))),
        ("devices", .arr (enriched.map (fun p => publicDeviceJson p.1 p.2)))]

/-- The `/data` handler of src/unnamed/part_001:
`fetchStats().catch(() => null)`, `fetchDevices().catch(() => [])`,
geo enrichment of at most 10 devices, sanitization, and a 200 JSON
response. -/
def handleData (now : Int) (statsRes : Fetch StatsJson)
    (devRes : Fetch (List DeviceRec))
    (geoOf : String → Option GeoResult) : HttpResponse :=
  let stats : Option StatsJson :=
    match statsRes with
    | .ok s => some s
    | .fail => none
  let devices : List DeviceRec :=
    match devRes with
    | .ok ds => ds
    | .fail => []
  { status := 200, body := dataBody now stats (enrich geoOf devices) }

/-- The `devices` array of a response body, as a list of JSON values. -/
def devicesField (r : HttpResponse) : List Json :=
  match lookupField (objFields r.body) "devices" with
  | some (.arr xs) => xs
  | _ => []

/-! ### Startup configuration check of src/unnamed/part_001 -/

/-- `(process.env.API_BASE || "").replace(/\/+$/, "")`. -/
def stripTrailingSlashes (s : String) : String :=
  String.mk ((s.data.reverse.dropWhile (fun c => c == '/')).reverse)

/-- JavaScript `String.prototype.trim`: strip whitespace from both ends. -/
def jsTrim (s : String) : String :=
  String.mk
    (((s.data.dropWhile Char.isWhitespace).reverse.dropWhile
        Char.isWhitespace).reverse)

/-- The startup guard of src/unnamed/part_001: serving proceeds (`true`) only
when both normalized values are non-empty; otherwise the process exits. -/
def lobsterStartupOk (apiBaseEnv statsTokenEnv : Option String) : Bool :=
  let apiBase := stripTrailingSlashes (apiBaseEnv.getD "")
  let statsToken := jsTrim (statsTokenEnv.getD "")
  !(apiBase == "" || statsToken == "")

/-- A concrete upstream device record with an IPv4-shaped address, used to
instantiate the universally quantified theorems on a concrete input. -/
def sampleDevice : DeviceRec :=
  { id := some "dev1", ip := some "1.2.3.4", os := some "linux",
    username := some "alice", hostname := some "box", lastSeen := some 5,
    online := true }

/-- A concrete upstream device record with no IP field. -/
def sampleNoIpDevice : DeviceRec :=
  { id := some "dev2", ip := none, os := some "win",
    username := some "bob", hostname := some "pc", lastSeen := none,
    online := false }

/-! ### The `/stats` proxy handlers (three variants) -/

/-- Outcome of the upstream `/stats` proxy call: a response whose body either
parses as JSON or makes `r.json()` throw with a message, or a network
failure. -/
inductive Upstream where
  | response (status : Nat) (body : Except String Json)
  | netFailure (msg : String)

/-- `{ error: "dashboard_not_configured" }`. -/
def notConfiguredBody : Json :=
  .obj [("error", .str "dashboard_not_configured")]

/-- `{ error: "dashboard_fetch_failed", detail: String(e) }`. -/
def fetchFailedBody (detail : String) : Json :=
  .obj [("error", .str "dashboard_fetch_failed"), ("detail", .str detail)]

/-- The `/stats` handler of src/server-dashboard.js: a per-request
configuration check, then a proxy that mirrors the upstream status and JSON
body. Returns `(response, external calls performed)`. -/
def statsHandlerSd (apiBase statsToken : String) (up : Upstream) :
    HttpResponse × Nat :=
  if apiBase = "" ∨ statsToken = "" then
    ({ status := 500, body := notConfiguredBody }, 0)
  else
    match up with
    | .response st (.ok j) => ({ status := st, body := j }, 1)
    | .response _ (.error msg) =>
      ({ status := 500, body := fetchFailedBody msg }, 1)
    | .netFailure msg => ({ status := 500, body := fetchFailedBody msg }, 1)

/-- The `/stats` handler of src/unnamed/part_000 (same logic as
src/server-dashboard.js: configuration check, then status/body mirroring). -/
def statsHandlerP0 (apiBase statsToken : String) (up : Upstream) :
    HttpResponse × Nat :=
  if apiBase = "" ∨ statsToken = "" then
    ({ status := 500, body := notConfiguredBody }, 0)
  else
    match up with
    | .response st (.ok j) => ({ status := st, body := j }, 1)
    | .response _ (.error msg) =>
      ({ status := 500, body := fetchFailedBody msg }, 1)
    | .netFailure msg => ({ status := 500, body := fetchFailedBody msg }, 1)

set_option linter.unusedVariables false in
/-- The `/stats` handler of src/unnamed/part_002: no configuration check —
the upstream request is issued unconditionally, carrying `STATS_TOKEN`
(possibly absent) in the `x-stats-token` header, and the upstream status and
JSON body are mirrored. -/
def statsHandlerP2 (statsToken : Option String) (up : Upstream) :
    HttpResponse × Nat :=
  match up with
  | .response st (.ok j) => ({ status := st, body := j }, 1)
  | .response _ (.error msg) =>
    ({ status := 500, body := fetchFailedBody msg }, 1)
  | .netFailure msg => ({ status := 500, body := fetchFailedBody msg }, 1)

/-! ## Helper lemmas -/

/-- The fetch-and-store tail of `lookupGeo` performs exactly one external
call, whatever the outcome. -/
theorem geoFetchStep_calls (oracle : String → GeoFetch) (now : Int)
    (cache : GeoCache) (ip : String) :
    (geoFetchStep oracle now cache ip).2.2 = 1 := by
  cases h : oracle ip <;> simp [geoFetchStep, h]

/-- No geo-lookup slot is consumed before the first device. -/
theorem countEligibleBefore_zero (ds : List DeviceRec) :
    countEligibleBefore ds 0 = 0 := rfl

/-- Slot accounting across the head of the device list. -/
theorem countEligibleBefore_cons_succ (d : DeviceRec) (rest : List DeviceRec)
    (i : Nat) :
    countEligibleBefore (d :: rest) (i + 1) =
      (if eligible d then 1 else 0) + countEligibleBefore rest i := by
  simp only [countEligibleBefore, List.take_succ_cons, List.filter]
  cases h : eligible d <;> simp [h, Nat.add_comm]

/-- Pointwise characterization of the enrichment walk: the device at index
`i` receives the geo lookup result exactly when it is eligible and fewer
than 10 slots are consumed before it. -/
theorem enrichGo_getElem (geoOf : String → Option GeoResult) :
    ∀ (ds : List DeviceRec) (k i : Nat),
    (enrichGo geoOf k ds)[i]? = (ds[i]?).map (fun d =>
      (d, if eligible d = true ∧ k + countEligibleBefore ds i < 10
          then geoOf (d.ip.getD "") else none)) := by
  intro ds
  induction ds with
  | nil => intro k i; simp [enrichGo]
  | cons d rest ih =>
    intro k i
    cases i with
    | zero =>
      cases he : eligible d with
      | false => simp [enrichGo, he, countEligibleBefore_zero]
      | true =>
        by_cases hk : k < 10
        · simp [enrichGo, he, hk, countEligibleBefore_zero]
        · simp [enrichGo, he, hk, countEligibleBefore_zero]
    | succ i =>
      have hcnt := countEligibleBefore_cons_succ d rest i
      cases he : eligible d with
      | false =>
        simp only [enrichGo, he, Bool.false_eq_true, if_false,
          List.getElem?_cons_succ, hcnt, ih k i, Nat.zero_add]
      | true =>
        have harith : k + 1 + countEligibleBefore rest i =
            k + (1 + countEligibleBefore rest i) := by omega
        simp only [enrichGo, he, if_true, List.getElem?_cons_succ, hcnt,
          ih (k + 1) i, harith]

/-- Enrichment preserves the length of the device list. -/
theorem enrichGo_length (geoOf : String → Option GeoResult) :
    ∀ (ds : List DeviceRec) (k : Nat),
    (enrichGo geoOf k ds).length = ds.length := by
  intro ds
  induction ds with
  | nil => intro k; simp [enrichGo]
  | cons d rest ih =>
    intro k
    cases he : eligible d <;> simp [enrichGo, he, ih]

/-! ## Claim theorems -/

/-- C1: for every upstream device list and every geo-cache behaviour, each
sanitized device object in the `/data` payload carries exactly the fields
id, country, city, os, username, hostname, lastSeen and online — in
particular no field named "ip" — and the sanitizer is oblivious to the raw
`ip` field, so the upstream IP value is never carried into the response. -/
theorem data_response_omits_ip (now : Int) (statsRes : Fetch StatsJson)
    (devRes : Fetch (List DeviceRec)) (geoOf : String → Option GeoResult) :
    (∀ o ∈ devicesField (handleData now statsRes devRes geoOf),
      objKeys o = ["id", "country", "city", "os", "username", "hostname",
        "lastSeen", "online"] ∧ "ip" ∉ objKeys o) ∧
    (∀ (d : DeviceRec) (geo : Option GeoResult) (v : Option String),
      publicDeviceJson { d with ip := v } geo = publicDeviceJson d geo) := by
  constructor
  · intro o ho
    cases devRes with
    | ok ds =>
      have ho2 : o ∈ (enrich geoOf ds).map
          (fun p => publicDeviceJson p.1 p.2) := ho
      obtain ⟨p, hp, rfl⟩ := List.mem_map.mp ho2
      have hk : objKeys (publicDeviceJson p.1 p.2) =
          ["id", "country", "city", "os", "username", "hostname",
            "lastSeen", "online"] := rfl
      refine ⟨hk, ?_⟩
      rw [hk]
      decide
    | fail =>
      have ho2 : o ∈ ([] : List Json) := ho
      exact absurd ho2 (List.not_mem_nil o)
  · intro d geo v
    rfl

/-- C1 witness: a concrete device record produces a sanitized object with
exactly the eight public fields and no "ip" field, and changing its raw IP
leaves the sanitized object unchanged. -/
theorem data_response_omits_ip_witness :
    objKeys (publicDeviceJson sampleDevice none) =
      ["id", "country", "city", "os", "username", "hostname",
        "lastSeen", "online"] ∧
    "ip" ∉ objKeys (publicDeviceJson sampleDevice none) ∧
    publicDeviceJson { sampleDevice with ip := some "9.9.9.9" } none =
      publicDeviceJson sampleDevice none := by
  have h := data_response_omits_ip 0 .fail (.ok [sampleDevice])
    (fun _ => none)
  have hmem : publicDeviceJson sampleDevice none ∈
      devicesField (handleData 0 .fail (.ok [sampleDevice])
        (fun _ => none)) :=
    List.mem_singleton_self _
  have h1 := h.1 _ hmem
  exact ⟨h1.1, h1.2, h.2 sampleDevice none (some "9.9.9.9")⟩

/-- C2 counterexample: in the src/unnamed/part_002 variant, with
`STATS_TOKEN` absent, a `/stats` request still issues the upstream call
(call count is not zero) and does not answer with the fixed
"not configured" error (the upstream 401 status is mirrored instead). -/
theorem p2_issues_upstream_call_without_token :
    (statsHandlerP2 none
      (.response 401 (.ok (.obj [("error", .str "unauthorized")])))).2 ≠ 0 ∧
    (statsHandlerP2 none
      (.response 401 (.ok (.obj [("error", .str "unauthorized")])))).1.status
      ≠ 500 ∧
    (statsHandlerP2 none
      (.response 401 (.ok (.obj [("error", .str "unauthorized")])))).1.status
      = 401 := by
  refine ⟨?_, ?_, rfl⟩ <;> decide

/-- C2 (amended): the aggregation variant blocks serving at startup when
`API_BASE` or `STATS_TOKEN` is absent; the server-dashboard.js and
part_000 proxy variants answer every `/stats` request with the fixed
"dashboard_not_configured" error and issue no upstream call when either
value is missing; but the part_002 proxy variant issues the upstream
request on every `/stats` request even with the credential absent. -/
theorem config_absence_policy_amended
    (apiBaseEnv statsTokenEnv tok : Option String)
    (apiBase statsToken : String) (up : Upstream) :
    (apiBaseEnv = none ∨ statsTokenEnv = none →
      lobsterStartupOk apiBaseEnv statsTokenEnv = false) ∧
    (apiBase = "" ∨ statsToken = "" →
      statsHandlerSd apiBase statsToken up =
        ({ status := 500, body := notConfiguredBody }, 0)) ∧
    (apiBase = "" ∨ statsToken = "" →
      statsHandlerP0 apiBase statsToken up =
        ({ status := 500, body := notConfiguredBody }, 0)) ∧
    (statsHandlerP2 tok up).2 = 1 := by
  refine ⟨?_, ?_, ?_, ?_⟩
  · rintro (rfl | rfl)
    · simp [lobsterStartupOk, stripTrailingSlashes]
    · simp [lobsterStartupOk, jsTrim]
  · intro h
    simp [statsHandlerSd, h]
  · intro h
    simp [statsHandlerP0, h]
  · cases up with
    | response st body => cases body <;> rfl
    | netFailure msg => rfl

/-- C2 (amended) witness: with `API_BASE` absent the aggregation variant
refuses to start; with an empty `API_BASE` the two checking proxies answer
500 "dashboard_not_configured" with zero upstream calls; and part_002 with
no token still performs one upstream call. -/
theorem config_absence_policy_amended_witness :
    lobsterStartupOk none (some "tok") = false ∧
    statsHandlerSd "" "tok" (.response 200 (.ok .null)) =
      ({ status := 500, body := notConfiguredBody }, 0) ∧
    statsHandlerP0 "" "tok" (.response 200 (.ok .null)) =
      ({ status := 500, body := notConfiguredBody }, 0) ∧
    (statsHandlerP2 none (.response 200 (.ok .null))).2 = 1 := by
  have h := config_absence_policy_amended none (some "tok") none "" "tok"
    (.response 200 (.ok .null))
  exact ⟨h.1 (Or.inl rfl), h.2.1 (Or.inl rfl), h.2.2.1 (Or.inl rfl),
    h.2.2.2⟩

/-- C3: the `/data` handler always answers HTTP 200 with the six-field
payload; a failed stats fetch yields null for all four counts, a failed
device fetch yields an empty devices array, and a successful stats fetch
passes its four count fields through unchanged. -/
theorem data_degrades_failures_to_defaults (now : Int)
    (statsRes : Fetch StatsJson) (devRes : Fetch (List DeviceRec))
    (geoOf : String → Option GeoResult) :
    (handleData now statsRes devRes geoOf).status = 200 ∧
    objKeys (handleData now statsRes devRes geoOf).body =
      ["ts", "installed", "active", "offline", "deleted", "devices"] ∧
    (statsRes = Fetch.fail →
      lookupField (objFields (handleData now statsRes devRes geoOf).body)
          "installed" = some .null ∧
      lookupField (objFields (handleData now statsRes devRes geoOf).body)
          "active" = some .null ∧
      lookupField (objFields (handleData now statsRes devRes geoOf).body)
          "offline" = some .null ∧
      lookupField (objFields (handleData now statsRes devRes geoOf).body)
          "deleted" = some .null) ∧
    (devRes = Fetch.fail →
      lookupField (objFields (handleData now statsRes devRes geoOf).body)
          "devices" = some (.arr [])) ∧
    (∀ s : StatsJson, statsRes = Fetch.ok s →
      lookupField (objFields (handleData now statsRes devRes geoOf).body)
          "installed" = some (optNumJson s.installed) ∧
      lookupField (objFields (handleData now statsRes devRes geoOf).body)
          "active" = some (optNumJson s.active) ∧
      lookupField (objFields (handleData now statsRes devRes geoOf).body)
          "offline" = some (optNumJson s.offline) ∧
      lookupField (objFields (handleData now statsRes devRes geoOf).body)
          "deleted" = some (optNumJson s.deleted)) := by
  refine ⟨rfl, rfl, ?_, ?_, ?_⟩
  · rintro rfl
    exact ⟨rfl, rfl, rfl, rfl⟩
  · rintro rfl
    rfl
  · rintro s rfl
    exact ⟨rfl, rfl, rfl, rfl⟩

/-- C3 witness: with upstream counts 100/40/55/5 and a failed device fetch,
the `/data` response is a 200 with `devices: []` and the counts carried
through non-null. -/
theorem data_degrades_failures_to_defaults_witness :
    (handleData 0 (.ok ⟨some 100, some 40, some 55, some 5⟩) .fail
      (fun _ => none)).status = 200 ∧
    lookupField (objFields (handleData 0
        (.ok ⟨some 100, some 40, some 55, some 5⟩) .fail
        (fun _ => none)).body) "devices" = some (.arr []) ∧
    lookupField (objFields (handleData 0
        (.ok ⟨some 100, some 40, some 55, some 5⟩) .fail
        (fun _ => none)).body) "installed" = some (.num 100) ∧
    lookupField (objFields (handleData 0
        (.ok ⟨some 100, some 40, some 55, some 5⟩) .fail
        (fun _ => none)).body) "active" = some (.num 40) := by
  have h := data_degrades_failures_to_defaults 0
    (.ok ⟨some 100, some 40, some 55, some 5⟩) .fail (fun _ => none)
  have hs := h.2.2.2.2 ⟨some 100, some 40, some 55, some 5⟩ rfl
  exact ⟨h.1, h.2.2.2.1 rfl, hs.1, hs.2.1⟩

/-- C4: for an IPv4-shaped IP with no cache entry, `lookupGeo` performs
exactly one external call; after a successful resolution, any later
`lookupGeo` on the same IP within 7 days returns the identical stored
result with no external call and an unchanged cache. -/
theorem lookupGeo_miss_once_then_cached (oracle : String → GeoFetch)
    (now : Int) (cache : GeoCache) (ip : String) (body : GeoBody)
    (hip : ipv4test ip = true) (hmiss : cacheGet cache ip = none) :
    (lookupGeo oracle now cache ip).2.2 = 1 ∧
    (oracle ip = .ok body →
      (lookupGeo oracle now cache ip).1 = some (normalizeGeo body) ∧
      ∀ (oracle2 : String → GeoFetch) (now2 : Int),
        now2 - now < sevenDaysMs →
        lookupGeo oracle2 now2 (lookupGeo oracle now cache ip).2.1 ip =
          (some (normalizeGeo body),
            (lookupGeo oracle now cache ip).2.1, 0)) := by
  refine ⟨?_, ?_⟩
  · simp [lookupGeo, hip, hmiss, geoFetchStep_calls]
  · intro hok
    refine ⟨?_, ?_⟩
    · simp [lookupGeo, hip, hmiss, geoFetchStep, hok]
    · intro oracle2 now2 hyoung
      simp [lookupGeo, hip, hmiss, geoFetchStep, hok, cacheSet, cacheGet,
        entryOf, entryToResult, hyoung]

/-- C4 witness: a first resolve of "1.2.3.4" on an empty cache makes one
external call, and a resolve 5 ms later returns the identical stored result
with zero external calls even though the provider now fails. -/
theorem lookupGeo_miss_once_then_cached_witness :
    (lookupGeo (fun _ => .ok ⟨some "Berlin", some "Germany", none,
        some 52, some 13⟩) 0 [] "1.2.3.4").2.2 = 1 ∧
    lookupGeo (fun _ => .failure) 5
        (lookupGeo (fun _ => .ok ⟨some "Berlin", some "Germany", none,
          some 52, some 13⟩) 0 [] "1.2.3.4").2.1 "1.2.3.4" =
      (some (normalizeGeo ⟨some "Berlin", some "Germany", none,
          some 52, some 13⟩),
        (lookupGeo (fun _ => .ok ⟨some "Berlin", some "Germany", none,
          some 52, some 13⟩) 0 [] "1.2.3.4").2.1, 0) := by
  have h := lookupGeo_miss_once_then_cached
    (fun _ => .ok ⟨some "Berlin", some "Germany", none, some 52, some 13⟩)
    0 [] "1.2.3.4"
    ⟨some "Berlin", some "Germany", none, some 52, some 13⟩
    (by decide) rfl
  exact ⟨h.1, (h.2 rfl).2 (fun _ => .failure) 5 (by decide)⟩

/-- C5: for an IPv4-shaped IP with no fresh cache entry, a failing external
lookup (non-success status or thrown failure) makes `lookupGeo` return null
with the cache unchanged, so any later resolve performs the external lookup
again. -/
theorem lookupGeo_failure_not_cached (oracle : String → GeoFetch)
    (now : Int) (cache : GeoCache) (ip : String)
    (hip : ipv4test ip = true)
    (hnofresh : ∀ e, cacheGet cache ip = some e → sevenDaysMs ≤ now - e.ts)
    (hfail : oracle ip = GeoFetch.httpError ∨ oracle ip = GeoFetch.failure) :
    lookupGeo oracle now cache ip = (none, cache, 1) ∧
    ∀ (oracle2 : String → GeoFetch) (now2 : Int), now ≤ now2 →
      (lookupGeo oracle2 now2 cache ip).2.2 = 1 := by
  refine ⟨?_, ?_⟩
  · cases hc : cacheGet cache ip with
    | none =>
      rcases hfail with h | h <;> simp [lookupGeo, hip, hc, geoFetchStep, h]
    | some e =>
      have hstale := hnofresh e hc
      rcases hfail with h | h <;>
        simp [lookupGeo, hip, hc, geoFetchStep, h,
          if_neg (by omega : ¬ now - e.ts < sevenDaysMs)]
  · intro oracle2 now2 hle
    cases hc : cacheGet cache ip with
    | none => simp [lookupGeo, hip, hc, geoFetchStep_calls]
    | some e =>
      have hstale := hnofresh e hc
      simp [lookupGeo, hip, hc,
        if_neg (by omega : ¬ now2 - e.ts < sevenDaysMs), geoFetchStep_calls]

/-- C5 witness: a non-success provider response for "1.2.3.4" yields null
and an unchanged empty cache, and a resolve 3 ms later calls the provider
again. -/
theorem lookupGeo_failure_not_cached_witness :
    lookupGeo (fun _ => .httpError) 0 [] "1.2.3.4" = (none, [], 1) ∧
    (lookupGeo (fun _ => .failure) 3 [] "1.2.3.4").2.2 = 1 := by
  have h := lookupGeo_failure_not_cached (fun _ => .httpError) 0 []
    "1.2.3.4" (by decide) (fun e he => nomatch he) (Or.inl rfl)
  exact ⟨h.1, h.2 (fun _ => .failure) 3 (by decide)⟩

/-- C6: the `/data` geo enrichment looks up only the first at-most-10
devices with a truthy IPv4-shaped IP: `geoTargets` has at most 10 members,
all eligible; a device receives the lookup result exactly when it is
eligible with fewer than 10 slots consumed before it, and every other
device keeps no geo data and is sanitized with empty country and city. -/
theorem geo_enrichment_bounded_ten (geoOf : String → Option GeoResult)
    (ds : List DeviceRec) :
    (geoTargets ds).length ≤ 10 ∧
    (∀ d ∈ geoTargets ds, eligible d = true) ∧
    (enrich geoOf ds).length = ds.length ∧
    ∀ (i : Nat) (d : DeviceRec), ds[i]? = some d →
      ((eligible d = true ∧ countEligibleBefore ds i < 10) →
        (enrich geoOf ds)[i]? = some (d, geoOf (d.ip.getD ""))) ∧
      (¬(eligible d = true ∧ countEligibleBefore ds i < 10) →
        (enrich geoOf ds)[i]? = some (d, none) ∧
        lookupField (objFields (publicDeviceJson d none)) "country" =
          some (.str "") ∧
        lookupField (objFields (publicDeviceJson d none)) "city" =
          some (.str "")) := by
  refine ⟨?_, ?_, ?_, ?_⟩
  · simp [geoTargets]
  · intro d hd
    exact List.of_mem_filter (List.mem_of_mem_take hd)
  · exact enrichGo_length geoOf ds 0
  · intro i d hd
    have h := enrichGo_getElem geoOf ds 0 i
    rw [hd] at h
    simp only [Nat.zero_add, Option.map] at h
    constructor
    · intro hcond
      show (enrichGo geoOf 0 ds)[i]? = _
      rw [h, if_pos hcond]
    · intro hcond
      refine ⟨?_, rfl, rfl⟩
      show (enrichGo geoOf 0 ds)[i]? = _
      rw [h, if_neg hcond]

/-- C6 witness: in a two-device list, the IPv4-bearing first device gets the
geo result, while the IP-less second device is not enriched and sanitizes to
empty country and city. -/
theorem geo_enrichment_bounded_ten_witness :
    (geoTargets [sampleDevice, sampleNoIpDevice]).length ≤ 10 ∧
    (enrich (fun _ => some ⟨"Paris", "France", none, none⟩)
        [sampleDevice, sampleNoIpDevice])[0]? =
      some (sampleDevice, some ⟨"Paris", "France", none, none⟩) ∧
    (enrich (fun _ => some ⟨"Paris", "France", none, none⟩)
        [sampleDevice, sampleNoIpDevice])[1]? =
      some (sampleNoIpDevice, none) ∧
    lookupField (objFields (publicDeviceJson sampleNoIpDevice none))
      "country" = some (.str "") ∧
    lookupField (objFields (publicDeviceJson sampleNoIpDevice none))
      "city" = some (.str "") := by
  have h := geo_enrichment_bounded_ten
    (fun _ => some ⟨"Paris", "France", none, none⟩)
    [sampleDevice, sampleNoIpDevice]
  have h0 := (h.2.2.2 0 sampleDevice rfl).1 (by decide)
  have h1 := (h.2.2.2 1 sampleNoIpDevice rfl).2 (by decide)
  exact ⟨h.1, h0, h1.1, h1.2.1, h1.2.2⟩

/-- C7: with no admin credential configured, `fetchDevices` returns the
empty list and performs zero outbound calls; with a credential configured
and a non-success upstream status, it fails with an error instead of
returning a list. -/
theorem fetchDevices_credential_policy (out : DevOutcome) (tok : String)
    (status : Nat) :
    fetchDevices "" out = (Except.ok [], 0) ∧
    (tok ≠ "" →
      fetchDevices tok (.httpError status) =
        (Except.error ("devices " ++ toString status), 1)) := by
  constructor
  · simp [fetchDevices]
  · intro htok
    simp [fetchDevices, htok]

/-- C7 witness: an empty admin token yields `[]` with zero calls whatever
the upstream would do, and the token "secret" with an upstream 500 yields
the thrown "devices 500" error. -/
theorem fetchDevices_credential_policy_witness :
    fetchDevices "" .failure = (Except.ok [], 0) ∧
    fetchDevices "secret" (.httpError 500) =
      (Except.error ("devices " ++ toString 500), 1) := by
  have h := fetchDevices_credential_policy DevOutcome.failure "secret" 500
  exact ⟨h.1, h.2 (by decide)⟩

/-- C8: in all three proxy variants, given valid configuration, the `/stats`
handler mirrors every upstream response — any status code together with its
parsed JSON body — back to the browser, performing one upstream call. -/
theorem stats_proxy_mirrors_upstream (apiBase statsToken : String)
    (tok : Option String) (status : Nat) (j : Json)
    (ha : apiBase ≠ "") (hs : statsToken ≠ "") :
    statsHandlerSd apiBase statsToken (.response status (.ok j)) =
      ({ status := status, body := j }, 1) ∧
    statsHandlerP0 apiBase statsToken (.response status (.ok j)) =
      ({ status := status, body := j }, 1) ∧
    statsHandlerP2 tok (.response status (.ok j)) =
      ({ status := status, body := j }, 1) := by
  refine ⟨?_, ?_, rfl⟩
  · simp [statsHandlerSd, ha, hs]
  · simp [statsHandlerP0, ha, hs]

/-- C8 witness: an upstream 404 with a JSON error body is mirrored as a 404
with the same body by all three handlers. -/
theorem stats_proxy_mirrors_upstream_witness :
    statsHandlerSd "https://main.example" "tok"
        (.response 404 (.ok (.obj [("error", .str "not_found")]))) =
      ({ status := 404, body := .obj [("error", .str "not_found")] }, 1) ∧
    statsHandlerP0 "https://main.example" "tok"
        (.response 404 (.ok (.obj [("error", .str "not_found")]))) =
      ({ status := 404, body := .obj [("error", .str "not_found")] }, 1) ∧
    statsHandlerP2 none
        (.response 404 (.ok (.obj [("error", .str "not_found")]))) =
      ({ status := 404, body := .obj [("error", .str "not_found")] }, 1) := by
  exact stats_proxy_mirrors_upstream "https://main.example" "tok" none 404
    (.obj [("error", .str "not_found")]) (by decide) (by decide)

/-- C9: for any string that is not IPv4-shaped, `lookupGeo` returns null
immediately, performs no external call and leaves the cache unchanged. -/
theorem lookupGeo_rejects_non_ipv4 (oracle : String → GeoFetch) (now : Int)
    (cache : GeoCache) (ip : String) (h : ipv4test ip = false) :
    lookupGeo oracle now cache ip = (none, cache, 0) := by
  simp [lookupGeo, h]

/-- C9 witness: an IPv6 address, the empty string and a hostname are all
rejected with null, zero external calls and an unchanged cache. -/
theorem lookupGeo_rejects_non_ipv4_witness :
    ipv4test "::1" = false ∧ ipv4test "" = false ∧
    ipv4test "device.example.com" = false ∧
    lookupGeo (fun _ => .httpError) 0 [] "::1" = (none, [], 0) ∧
    lookupGeo (fun _ => .httpError) 0 [] "" = (none, [], 0) ∧
    lookupGeo (fun _ => .httpError) 0 [] "device.example.com" =
      (none, [], 0) :=
  ⟨by decide, by decide, by decide,
    lookupGeo_rejects_non_ipv4 _ 0 [] "::1" (by decide),
    lookupGeo_rejects_non_ipv4 _ 0 [] "" (by decide),
    lookupGeo_rejects_non_ipv4 _ 0 [] "device.example.com" (by decide)⟩

/-- C10: for an IPv4-shaped IP whose cache entry is at least 7 days old, a
failing refresh lookup makes `lookupGeo` return null — it does not fall
back to the stale stored result — and the stale entry remains in the cache
unchanged. -/
theorem lookupGeo_stale_no_fallback (oracle : String → GeoFetch)
    (now : Int) (cache : GeoCache) (ip : String) (e : GeoEntry)
    (hip : ipv4test ip = true) (hent : cacheGet cache ip = some e)
    (hstale : sevenDaysMs ≤ now - e.ts)
    (hfail : oracle ip = GeoFetch.httpError ∨ oracle ip = GeoFetch.failure) :
    (lookupGeo oracle now cache ip).1 = none ∧
    (lookupGeo oracle now cache ip).2.1 = cache ∧
    cacheGet (lookupGeo oracle now cache ip).2.1 ip = some e := by
  have hmain : lookupGeo oracle now cache ip = (none, cache, 1) := by
    rcases hfail with h | h <;>
      simp [lookupGeo, hip, hent, geoFetchStep, h,
        if_neg (by omega : ¬ now - e.ts < sevenDaysMs)]
  simp [hmain, hent]

/-- C10 witness: with a 7-day-old entry for "8.8.8.8" and a failing
provider, the resolve returns null while the stale entry is still in the
cache. -/
theorem lookupGeo_stale_no_fallback_witness :
    (lookupGeo (fun _ => .failure) sevenDaysMs
      [("8.8.8.8", ⟨"Paris", "France", none, none, 0⟩)] "8.8.8.8").1 =
        none ∧
    (lookupGeo (fun _ => .failure) sevenDaysMs
      [("8.8.8.8", ⟨"Paris", "France", none, none, 0⟩)] "8.8.8.8").2.1 =
        [("8.8.8.8", ⟨"Paris", "France", none, none, 0⟩)] ∧
    cacheGet (lookupGeo (fun _ => .failure) sevenDaysMs
      [("8.8.8.8", ⟨"Paris", "France", none, none, 0⟩)] "8.8.8.8").2.1
      "8.8.8.8" = some ⟨"Paris", "France", none, none, 0⟩ := by
  exact lookupGeo_stale_no_fallback (fun _ => .failure) sevenDaysMs
    [("8.8.8.8", ⟨"Paris", "France", none, none, 0⟩)] "8.8.8.8"
    ⟨"Paris", "France", none, none, 0⟩ (by decide) (by decide)
    (by decide) (Or.inr rfl)
